import Mathlib

/-!
Verification of the pitilt motion-control core (`control.py`, `api.py`,
`settings.py`) against its natural-language specification.

The Python code is shallowly embedded: machine state (the `settings.state`
global plus the two physical servos) is passed explicitly, angles are
integers (the code rounds the hardware float to `int` before every use we
model), Python `dict` is an insertion-ordered association list, Python
`range` is given by its standard closed form, and `time.sleep` is dropped
(it never affects any angle computation).
-/

namespace Pitilt

/-- Closed-form length of the Python `range(start, stop, step)` sequence:
`max 0 ⌈(stop-start)/step⌉` for positive `step`, mirrored for negative
`step`, and empty for `step = 0` (Python raises there; never reached by the
code we model with a positive configured step). -/
def pyRangeLen (start stop step : Int) : Nat :=
  if 0 < step then ((stop - start + step - 1) / step).toNat
  else if step < 0 then ((start - stop + (-step) - 1) / (-step)).toNat
  else 0

/-- The Python `range(start, stop, step)` sequence:
`start, start+step, ...`, of length `pyRangeLen start stop step`. -/
def pyRange (start stop step : Int) : List Int :=
  (List.range (pyRangeLen start stop step)).map (fun k : Nat => start + step * (k : Int))

/-- `settings.ServoPosition`: per-axis limits/stepping configuration.
`sleep` (a float in the source) only paces the physical move and never
enters an angle computation; it is carried as an integer placeholder. -/
structure ServoPosition where
  min : Int
  max : Int
  step : Int
  sleep : Int
deriving DecidableEq

/-- `settings.Position`: the two axis configurations. -/
structure Position where
  pan : ServoPosition
  tilt : ServoPosition
deriving DecidableEq

/-- `settings.Location`: a saved pan/tilt pair. -/
structure Location where
  pan : Int
  tilt : Int
deriving DecidableEq

/-- Python `dict` lookup on an insertion-ordered association list. -/
def dictLookup (locs : List (String × Location)) (n : String) : Option Location :=
  match locs with
  | [] => none
  | (k, v) :: rest => if k = n then some v else dictLookup rest n

/-- Python `name in dict`. -/
def dictMem (locs : List (String × Location)) (n : String) : Bool :=
  (dictLookup locs n).isSome

/-- Python `dict[name] = value`: overwrite in place, else append. -/
def dictSet (locs : List (String × Location)) (n : String) (l : Location) :
    List (String × Location) :=
  match locs with
  | [] => [(n, l)]
  | (k, v) :: rest => if k = n then (k, l) :: rest else (k, v) :: dictSet rest n l

/-- Python `del dict[name]`: `none` models the `KeyError` raised when the
key is absent. -/
def dictDel (locs : List (String × Location)) (n : String) :
    Option (List (String × Location)) :=
  match locs with
  | [] => none
  | (k, v) :: rest =>
      if k = n then some rest else (dictDel rest n).map (fun r => (k, v) :: r)

/-- `settings.State`: the persisted application state. -/
structure State where
  position : Position
  locations : List (String × Location)
deriving DecidableEq

/-- One physical servo (`adafruit_motor` handle); its `angle` setpoint.
The source reads a float and rounds it to `int` everywhere we model, so the
angle is carried as an integer. -/
structure Servo where
  angle : Int
deriving DecidableEq

/-- The whole machine: the `settings.state` global plus both servos. -/
structure Sys where
  state : State
  servo_pan : Servo
  servo_tilt : Servo
deriving DecidableEq

/-- `control.get_angle_as_int`. -/
def get_angle_as_int (servo : Servo) : Int :=
  servo.angle

/-- `control.clamp`. -/
def clamp (val min_val max_val : Int) : Int :=
  max min_val (min val max_val)

/-- `control.move_servo`: emits, in order, every angle the loop
`for i in range(max(0, current), want + direction, step * direction)`
writes to the servo, and the servo ends at the last written angle (or is
untouched when the loop body never runs). -/
def move_servo (step : Int) (want : Int) (servo : Servo) : List Int × Servo :=
  let current := get_angle_as_int servo
  let direction : Int := if want > servo.angle then 1 else -1
  let emitted := pyRange (max 0 current) (want + direction) (step * direction)
  (emitted, ⟨(emitted.getLast?).getD servo.angle⟩)

/-- `control.pan`: returns the clamped target `want`, the emitted angle
trace, and the updated machine. -/
def pan (i : Int) (relative : Bool) (sys : Sys) : Int × List Int × Sys :=
  let current := get_angle_as_int sys.servo_pan
  let want := clamp (i + (if relative then current else 0))
      sys.state.position.pan.min sys.state.position.pan.max
  let res := move_servo sys.state.position.pan.step want sys.servo_pan
  (want, res.1, { sys with servo_pan := res.2 })

/-- `control.tilt`. -/
def tilt (i : Int) (relative : Bool) (sys : Sys) : Int × List Int × Sys :=
  let current := get_angle_as_int sys.servo_tilt
  let want := clamp (i + (if relative then current else 0))
      sys.state.position.tilt.min sys.state.position.tilt.max
  let res := move_servo sys.state.position.tilt.step want sys.servo_tilt
  (want, res.1, { sys with servo_tilt := res.2 })

/-- Result of `control.move_location`: the returned status dict (`some
"not found"` on a missing name, `none` for Python's implicit `None`), the
pan-servo trace, then the tilt-servo trace (the source moves pan first,
then tilt). -/
structure MoveLocationResult where
  status : Option String
  pan_emitted : List Int
  tilt_emitted : List Int
  sys : Sys
deriving DecidableEq

/-- `control.move_location`. -/
def move_location (name : String) (sys : Sys) : MoveLocationResult :=
  match dictLookup sys.state.locations name with
  | none => ⟨some "not found", [], [], sys⟩
  | some loc =>
      let want_pan := clamp loc.pan
          sys.state.position.pan.min sys.state.position.pan.max
      let want_tilt := clamp loc.tilt
          sys.state.position.tilt.min sys.state.position.tilt.max
      let resPan := move_servo sys.state.position.pan.step want_pan sys.servo_pan
      let resTilt := move_servo sys.state.position.tilt.step want_tilt sys.servo_tilt
      ⟨none, resPan.1, resTilt.1,
        { sys with servo_pan := resPan.2, servo_tilt := resTilt.2 }⟩

/-- `control.get_current_tilt_position`. -/
def get_current_tilt_position (sys : Sys) : Int :=
  get_angle_as_int sys.servo_tilt

/-- `control.get_current_pan_position`. -/
def get_current_pan_position (sys : Sys) : Int :=
  get_angle_as_int sys.servo_pan

/-- `control.move_down` (tilt is inverted: down is a positive delta). -/
def move_down (sys : Sys) : Int × List Int × Sys :=
  tilt 2 true sys

/-- `control.move_up`. -/
def move_up (sys : Sys) : Int × List Int × Sys :=
  tilt (-2) true sys

/-- `control.move_left`. -/
def move_left (sys : Sys) : Int × List Int × Sys :=
  pan 2 true sys

/-- `control.move_right`. -/
def move_right (sys : Sys) : Int × List Int × Sys :=
  pan (-2) true sys

/-- `api.save_location` (the state mutation; persistence and the
re-registration signal are external collaborators). Stores the current
pan/tilt angles unclamped under `name`. -/
def save_location (name : String) (sys : Sys) : Sys :=
  { sys with state := { sys.state with locations := (dictSet sys.state.locations name ⟨get_current_pan_position sys, get_current_tilt_position sys⟩) } }

/-- `api.delete_location`: `del get_state().locations[name]`; `none`
models the `KeyError` on a missing key. -/
def delete_location (name : String) (sys : Sys) : Option Sys :=
  (dictDel sys.state.locations name).map
    (fun locs => { sys with state := { sys.state with locations := locs } })

/-- Python truthiness of the optional request body in the limit-setting
handlers: `value and value.value` is true exactly when a body was supplied
and its numeric `value` field is nonzero (so an explicit `0` is falsy). -/
def value_truthy (value : Option Int) : Bool :=
  match value with
  | some v => v != 0
  | none => false

/-- `api.pan_max` handler body. -/
def pan_max (value : Option Int) (sys : Sys) : Sys :=
  let newVal := if value_truthy value then value.getD 0 else get_current_pan_position sys
  { sys with state := { sys.state with position := { sys.state.position with pan := { sys.state.position.pan with max := newVal } } } }

/-- `api.pan_min` handler body. -/
def pan_min (value : Option Int) (sys : Sys) : Sys :=
  let newVal := if value_truthy value then value.getD 0 else get_current_pan_position sys
  { sys with state := { sys.state with position := { sys.state.position with pan := { sys.state.position.pan with min := newVal } } } }

/-- `api.tilt_max` handler body. -/
def tilt_max (value : Option Int) (sys : Sys) : Sys :=
  let newVal := if value_truthy value then value.getD 0 else get_current_tilt_position sys
  { sys with state := { sys.state with position := { sys.state.position with tilt := { sys.state.position.tilt with max := newVal } } } }

/-- `api.tilt_min` handler body. -/
def tilt_min (value : Option Int) (sys : Sys) : Sys :=
  let newVal := if value_truthy value then value.getD 0 else get_current_tilt_position sys
  { sys with state := { sys.state with position := { sys.state.position with tilt := { sys.state.position.tilt with min := newVal } } } }

/-- `api.get_pan` handler: the source returns
`{pan: get_current_tilt_position()}` — the value it exposes is the tilt
servo's angle. We model the exposed value. -/
def get_pan (sys : Sys) : Int :=
  get_current_tilt_position sys

/-- `api.get_tilt` handler: returns `{tilt: get_current_tilt_position()}`. -/
def get_tilt (sys : Sys) : Int :=
  get_current_tilt_position sys

/-- Modelled from the spec: `constants.py` (holding `DEFAULT_SERVO_STEP`)
is not among the provided sources; the spec's worked example configures
`step=2` and the fixed nudges move by 2 degrees, so the default step is
taken as 2. -/
def DEFAULT_SERVO_STEP : Int := 2

/-- Modelled from the spec: `constants.py` (holding `DEFAULT_SERVO_SLEEP`)
is not among the provided sources; the spec's worked example uses
`sleep=0`. The value never enters any angle computation. -/
def DEFAULT_SERVO_SLEEP : Int := 0

/-- The default `settings.state` global: pan limits 0..270, tilt limits
0..135, default step/sleep, and a single `"home"` location at (60, 45). -/
def initial_state : State :=
  ⟨⟨⟨0, 270, DEFAULT_SERVO_STEP, DEFAULT_SERVO_SLEEP⟩,
    ⟨0, 135, DEFAULT_SERVO_STEP, DEFAULT_SERVO_SLEEP⟩⟩,
   [("home", ⟨60, 45⟩)]⟩

/-- A machine in the default configuration with the servos at the `"home"`
angles. -/
def init_sys : Sys :=
  ⟨initial_state, ⟨60⟩, ⟨45⟩⟩

/-- The spec's worked example: pan limits `min=0, max=270, step=2,
sleep=0`, current pan angle 10. -/
def exampleSys : Sys :=
  ⟨⟨⟨⟨0, 270, 2, 0⟩, ⟨0, 135, 2, 0⟩⟩, [("home", ⟨60, 45⟩)]⟩, ⟨10⟩, ⟨45⟩⟩

/-- A machine whose pan limits were tightened to 20..30 while the pan
servo still sits at angle 10 (outside the new limits). -/
def tightenedSys : Sys :=
  ⟨⟨⟨⟨20, 30, 2, 0⟩, ⟨0, 135, 2, 0⟩⟩, [("home", ⟨60, 45⟩)]⟩, ⟨10⟩, ⟨45⟩⟩

/-- A machine whose pan axis is configured with `step = 4`, pan servo at
angle 10, well inside the 0..270 limits. -/
def stepFourSys : Sys :=
  ⟨⟨⟨⟨0, 270, 4, 0⟩, ⟨0, 135, 4, 0⟩⟩, [("home", ⟨60, 45⟩)]⟩, ⟨10⟩, ⟨45⟩⟩

/-- The machine obtained by saving location `"x"` at the default pose
(pan 60, tilt 45) and then tightening the pan limits to 20..30. -/
def roundtripSys : Sys :=
  ⟨⟨⟨⟨20, 30, 2, 0⟩, ⟨0, 135, 2, 0⟩⟩,
    (save_location "x" init_sys).state.locations⟩, ⟨60⟩, ⟨45⟩⟩

/-!  General lemmas about the embedded Python `range`. -/

/-- Elements of an upward `range` lie in `[start, stop)`. -/
theorem mem_pyRange_pos {start stop step a : Int} (hs : 0 < step)
    (ha : a ∈ pyRange start stop step) : start ≤ a ∧ a < stop := by
  unfold pyRange pyRangeLen at ha
  rw [if_pos hs] at ha
  rcases List.mem_map.1 ha with ⟨k, hk, rfl⟩
  rw [List.mem_range] at hk
  have hk1 : (k : Int) < (stop - start + step - 1) / step := Int.lt_toNat.1 hk
  have heq : stop - start + step - 1 = (stop - start - 1) + 1 * step := by ring
  rw [heq, Int.add_mul_ediv_right _ _ (ne_of_gt hs)] at hk1
  have hk2 : (k : Int) ≤ (stop - start - 1) / step := by omega
  have hk3 : (k : Int) * step ≤ stop - start - 1 := (Int.le_ediv_iff_mul_le hs).1 hk2
  have hknn : (0 : Int) ≤ (k : Int) := Int.natCast_nonneg k
  have hmul : 0 ≤ step * (k : Int) := mul_nonneg (le_of_lt hs) hknn
  constructor
  · omega
  · have : step * (k : Int) = (k : Int) * step := mul_comm _ _
    omega

/-- Elements of a downward `range` lie in `(stop, start]`. -/
theorem mem_pyRange_neg {start stop step a : Int} (hs : step < 0)
    (ha : a ∈ pyRange start stop step) : stop < a ∧ a ≤ start := by
  unfold pyRange pyRangeLen at ha
  rw [if_neg (by omega), if_pos hs] at ha
  rcases List.mem_map.1 ha with ⟨k, hk, rfl⟩
  rw [List.mem_range] at hk
  have hm : 0 < -step := by omega
  have hk1 : (k : Int) < (start - stop + -step - 1) / (-step) := Int.lt_toNat.1 hk
  have heq : start - stop + -step - 1 = (start - stop - 1) + 1 * (-step) := by ring
  rw [heq, Int.add_mul_ediv_right _ _ (ne_of_gt hm)] at hk1
  have hk2 : (k : Int) ≤ (start - stop - 1) / (-step) := by omega
  have hk3 : (k : Int) * (-step) ≤ start - stop - 1 := (Int.le_ediv_iff_mul_le hm).1 hk2
  have hknn : (0 : Int) ≤ (k : Int) := Int.natCast_nonneg k
  have hmul : 0 ≤ (-step) * (k : Int) := mul_nonneg (le_of_lt hm) hknn
  have e1 : (k : Int) * (-step) = -(step * (k : Int)) := by ring
  have e2 : (-step) * (k : Int) = -(step * (k : Int)) := by ring
  constructor
  · omega
  · omega

/-- An upward `range(start, tgt + 1, step)` whose target is step-aligned
with its start ends exactly at `tgt`. -/
theorem pyRange_getLast_pos {start tgt step : Int} (hs : 0 < step) (h1 : start ≤ tgt)
    (hd : step ∣ (tgt - start)) :
    (pyRange start (tgt + 1) step).getLast? = some tgt := by
  unfold pyRange pyRangeLen
  rw [if_pos hs]
  have heq : tgt + 1 - start + step - 1 = (tgt - start) + 1 * step := by ring
  rw [heq, Int.add_mul_ediv_right _ _ (ne_of_gt hs)]
  have hq0 : 0 ≤ (tgt - start) / step := Int.ediv_nonneg (by omega) (le_of_lt hs)
  have htn : ((tgt - start) / step + 1).toNat = ((tgt - start) / step).toNat + 1 := by
    omega
  rw [htn, List.range_succ, List.map_append]
  simp only [List.map_cons, List.map_nil, List.getLast?_concat]
  have hcast : (((tgt - start) / step).toNat : Int) = (tgt - start) / step :=
    Int.toNat_of_nonneg hq0
  rw [hcast, mul_comm, Int.ediv_mul_cancel hd]
  congr 1
  omega

/-- A downward `range(start, tgt - 1, -m)` whose target is aligned with
its start ends exactly at `tgt`. -/
theorem pyRange_getLast_neg {start tgt m : Int} (hm : 0 < m) (h1 : tgt ≤ start)
    (hd : m ∣ (start - tgt)) :
    (pyRange start (tgt - 1) (-m)).getLast? = some tgt := by
  unfold pyRange pyRangeLen
  rw [if_neg (by omega), if_pos (by omega), neg_neg]
  have heq : start - (tgt - 1) + m - 1 = (start - tgt) + 1 * m := by ring
  rw [heq, Int.add_mul_ediv_right _ _ (ne_of_gt hm)]
  have hq0 : 0 ≤ (start - tgt) / m := Int.ediv_nonneg (by omega) (le_of_lt hm)
  have htn : ((start - tgt) / m + 1).toNat = ((start - tgt) / m).toNat + 1 := by
    omega
  rw [htn, List.range_succ, List.map_append]
  simp only [List.map_cons, List.map_nil, List.getLast?_concat]
  have hcast : (((start - tgt) / m).toNat : Int) = (start - tgt) / m :=
    Int.toNat_of_nonneg hq0
  have hstep : -m * ((start - tgt) / m) = -((start - tgt) / m * m) := by ring
  rw [hcast, hstep, Int.ediv_mul_cancel hd]
  congr 1
  omega

/-!  Lemmas about the embedded Python `dict` operations. -/

/-- Looking up the key just assigned returns the assigned value. -/
theorem dictLookup_dictSet_self (locs : List (String × Location)) (n : String)
    (l : Location) : dictLookup (dictSet locs n l) n = some l := by
  induction locs with
  | nil => simp [dictSet, dictLookup]
  | cons kv rest ih =>
      obtain ⟨k, v⟩ := kv
      by_cases hk : k = n
      · simp [dictSet, dictLookup, hk]
      · simp [dictSet, dictLookup, hk, ih]

/-- Assignment leaves every other key's binding unchanged. -/
theorem dictLookup_dictSet_ne (locs : List (String × Location)) (n m : String)
    (l : Location) (h : m ≠ n) : dictLookup (dictSet locs n l) m = dictLookup locs m := by
  induction locs with
  | nil =>
      simp only [dictSet, dictLookup]
      rw [if_neg (Ne.symm h)]
  | cons kv rest ih =>
      obtain ⟨k, v⟩ := kv
      simp only [dictSet]
      by_cases hk : k = n
      · rw [if_pos hk]
        have hkm : k ≠ m := by rw [hk]; exact Ne.symm h
        simp only [dictLookup]
        rw [if_neg hkm, if_neg hkm]
      · rw [if_neg hk]
        simp only [dictLookup]
        by_cases hkm : k = m
        · rw [if_pos hkm, if_pos hkm]
        · rw [if_neg hkm, if_neg hkm]
          exact ih

/-- A key that is not among the stored keys looks up to nothing. -/
theorem dictLookup_eq_none_of_not_mem (locs : List (String × Location)) (n : String)
    (h : n ∉ locs.map Prod.fst) : dictLookup locs n = none := by
  induction locs with
  | nil => rfl
  | cons kv rest ih =>
      obtain ⟨k, v⟩ := kv
      simp only [List.map_cons, List.mem_cons] at h
      push_neg at h
      simp only [dictLookup]
      rw [if_neg (Ne.symm h.1)]
      exact ih h.2

/-- Deletion leaves every other key's binding unchanged. -/
theorem dictDel_lookup_ne (locs locs2 : List (String × Location)) (n m : String)
    (hm : m ≠ n) (h : dictDel locs n = some locs2) :
    dictLookup locs2 m = dictLookup locs m := by
  induction locs generalizing locs2 with
  | nil => simp [dictDel] at h
  | cons kv rest ih =>
      obtain ⟨k, v⟩ := kv
      simp only [dictDel] at h
      by_cases hk : k = n
      · rw [if_pos hk] at h
        injection h with h2
        subst h2
        have hkm : k ≠ m := by rw [hk]; exact Ne.symm hm
        simp only [dictLookup]
        rw [if_neg hkm]
      · rw [if_neg hk] at h
        rcases Option.map_eq_some'.1 h with ⟨r, hr, hlocs⟩
        subst hlocs
        simp only [dictLookup]
        by_cases hkm : k = m
        · rw [if_pos hkm, if_pos hkm]
        · rw [if_neg hkm, if_neg hkm]
          exact ih r hr

/-- On duplicate-free keys (the Python `dict` invariant), deleting a key
removes it entirely. -/
theorem dictDel_lookup_self (locs locs2 : List (String × Location)) (n : String)
    (hnd : (locs.map Prod.fst).Nodup) (h : dictDel locs n = some locs2) :
    dictLookup locs2 n = none := by
  induction locs generalizing locs2 with
  | nil => simp [dictDel] at h
  | cons kv rest ih =>
      obtain ⟨k, v⟩ := kv
      simp only [List.map_cons, List.nodup_cons] at hnd
      simp only [dictDel] at h
      by_cases hk : k = n
      · rw [if_pos hk] at h
        injection h with h2
        subst h2
        subst hk
        exact dictLookup_eq_none_of_not_mem _ _ hnd.1
      · rw [if_neg hk] at h
        rcases Option.map_eq_some'.1 h with ⟨r, hr, hlocs⟩
        subst hlocs
        simp only [dictLookup]
        rw [if_neg hk]
        exact ih r hnd.2 hr

/-- `clamp` acts as the identity inside the limits. -/
theorem clamp_eq_self {v lo hi : Int} (h1 : lo ≤ v) (h2 : v ≤ hi) :
    clamp v lo hi = v := by
  unfold clamp
  omega

/-!  Lemmas about `move_servo`. -/

/-- `clamp` lands inside the limits whenever `min ≤ max`. -/
theorem clamp_bounds {v lo hi : Int} (h : lo ≤ hi) :
    lo ≤ clamp v lo hi ∧ clamp v lo hi ≤ hi := by
  unfold clamp
  omega

/-- Every element of a `range` is congruent to its start modulo the step. -/
theorem mem_pyRange_dvd {start stop step a : Int} (ha : a ∈ pyRange start stop step) :
    step ∣ (a - start) := by
  unfold pyRange at ha
  rcases List.mem_map.1 ha with ⟨k, _, rfl⟩
  have h : start + step * (k : Int) - start = step * (k : Int) := by ring
  rw [h]
  exact dvd_mul_right step (k : Int)

/-- A target that is not a step-multiple away from the (non-negative)
current angle is never emitted, in either direction. -/
theorem move_servo_target_not_emitted (s w : Int) (servo : Servo)
    (hc : 0 ≤ servo.angle) (hd : ¬ s ∣ (w - servo.angle)) :
    w ∉ (move_servo s w servo).1 := by
  intro hmem
  simp only [move_servo, get_angle_as_int] at hmem
  rw [max_eq_right hc] at hmem
  by_cases hdir : servo.angle < w
  · rw [if_pos hdir, mul_one] at hmem
    exact hd (mem_pyRange_dvd hmem)
  · rw [if_neg hdir] at hmem
    have e2 : s * -1 = -s := by ring
    rw [e2] at hmem
    exact hd (neg_dvd.1 (mem_pyRange_dvd hmem))

/-- Upward move with a step-aligned target: the last emitted angle is the
target. -/
theorem move_servo_getLast_up (s w : Int) (servo : Servo) (hs : 0 < s)
    (hc : 0 ≤ servo.angle) (hlt : servo.angle < w) (hd : s ∣ (w - servo.angle)) :
    (move_servo s w servo).1.getLast? = some w := by
  simp only [move_servo, get_angle_as_int]
  rw [if_pos hlt, mul_one, max_eq_right hc]
  exact pyRange_getLast_pos hs (le_of_lt hlt) hd

/-- Downward (or zero-distance) move with a step-aligned target: the last
emitted angle is the target. -/
theorem move_servo_getLast_down (s w : Int) (servo : Servo) (hs : 0 < s)
    (hc : 0 ≤ servo.angle) (hge : w ≤ servo.angle) (hd : s ∣ (servo.angle - w)) :
    (move_servo s w servo).1.getLast? = some w := by
  simp only [move_servo, get_angle_as_int]
  rw [if_neg (not_lt.2 hge), max_eq_right hc]
  have e1 : w + -1 = w - 1 := by ring
  have e2 : s * -1 = -s := by ring
  rw [e1, e2]
  exact pyRange_getLast_neg hs hge hd

/-- Upward aligned move: the servo ends exactly at the target. -/
theorem move_servo_end_up (s w : Int) (servo : Servo) (hs : 0 < s)
    (hc : 0 ≤ servo.angle) (hlt : servo.angle < w) (hd : s ∣ (w - servo.angle)) :
    (move_servo s w servo).2 = ⟨w⟩ := by
  have h := move_servo_getLast_up s w servo hs hc hlt hd
  show (⟨((move_servo s w servo).1.getLast?).getD servo.angle⟩ : Servo) = ⟨w⟩
  rw [h]
  rfl

/-- Downward aligned move: the servo ends exactly at the target. -/
theorem move_servo_end_down (s w : Int) (servo : Servo) (hs : 0 < s)
    (hc : 0 ≤ servo.angle) (hge : w ≤ servo.angle) (hd : s ∣ (servo.angle - w)) :
    (move_servo s w servo).2 = ⟨w⟩ := by
  have h := move_servo_getLast_down s w servo hs hc hge hd
  show (⟨((move_servo s w servo).1.getLast?).getD servo.angle⟩ : Servo) = ⟨w⟩
  rw [h]
  rfl

/-- Every angle a move emits lies between the loop's starting angle
`max 0 current` and the (in-limits) target. -/
theorem move_servo_emitted_within (s w : Int) (servo : Servo) (lo hi : Int)
    (hs : 0 < s) (hw1 : lo ≤ w) (hw2 : w ≤ hi)
    (hc1 : lo ≤ max 0 servo.angle) (hc2 : max 0 servo.angle ≤ hi)
    (x : Int) (hx : x ∈ (move_servo s w servo).1) : lo ≤ x ∧ x ≤ hi := by
  simp only [move_servo, get_angle_as_int] at hx
  by_cases hdir : servo.angle < w
  · rw [if_pos hdir, mul_one] at hx
    have hb := mem_pyRange_pos hs hx
    omega
  · rw [if_neg hdir] at hx
    have e2 : s * -1 = -s := by ring
    rw [e2] at hx
    have hb := mem_pyRange_neg (by omega : -s < 0) hx
    omega

/-!  Claim theorems. -/

/-- C1: for every axis and every requested absolute target, if the axis's
configured limits satisfy `min ≤ max`, then the value returned by the move
operation (the clamped target) lies in `[limits.min, limits.max]`. -/
theorem c1_moveaxis_result_within_limits (i : Int) (relative : Bool) (sys : Sys)
    (hpan : sys.state.position.pan.min ≤ sys.state.position.pan.max)
    (htilt : sys.state.position.tilt.min ≤ sys.state.position.tilt.max) :
    (sys.state.position.pan.min ≤ (pan i relative sys).1 ∧
      (pan i relative sys).1 ≤ sys.state.position.pan.max) ∧
    (sys.state.position.tilt.min ≤ (tilt i relative sys).1 ∧
      (tilt i relative sys).1 ≤ sys.state.position.tilt.max) := by
  refine ⟨⟨?_, ?_⟩, ⟨?_, ?_⟩⟩ <;>
    simp only [pan, tilt, clamp] <;> omega

/-- C1 witness: a requested pan/tilt target of 300 is clamped into the
default limits. -/
theorem c1_moveaxis_result_within_limits_witness :
    (init_sys.state.position.pan.min ≤ (pan 300 false init_sys).1 ∧
      (pan 300 false init_sys).1 ≤ init_sys.state.position.pan.max) ∧
    (init_sys.state.position.tilt.min ≤ (tilt 300 false init_sys).1 ∧
      (tilt 300 false init_sys).1 ≤ init_sys.state.position.tilt.max) :=
  c1_moveaxis_result_within_limits 300 false init_sys (by decide) (by decide)

/-- C5: moving to a name absent from the location registry returns the
"not found" status, emits no servo angle, and leaves the whole machine
state unchanged. -/
theorem c5_move_location_missing_no_side_effects (sys : Sys) (name : String)
    (h : dictLookup sys.state.locations name = none) :
    move_location name sys = ⟨some "not found", [], [], sys⟩ := by
  unfold move_location
  rw [h]

/-- C5 witness: `move_location "nonexistent"` on the default machine. -/
theorem c5_move_location_missing_witness :
    move_location "nonexistent" init_sys = ⟨some "not found", [], [], init_sys⟩ :=
  c5_move_location_missing_no_side_effects init_sys "nonexistent" (by decide)

/-- C10: the HTTP pan-read handler returns the tilt servo's angle, so the
pan-read and tilt-read handlers always return equal values; on a machine
with pan at 100 and tilt at 45 the pan read returns 45. -/
theorem c10_get_pan_returns_tilt_angle (sys : Sys) :
    get_pan sys = get_current_tilt_position sys ∧
    get_pan sys = get_tilt sys ∧
    get_pan ⟨initial_state, ⟨100⟩, ⟨45⟩⟩ = 45 ∧
    get_current_pan_position ⟨initial_state, ⟨100⟩, ⟨45⟩⟩ = 100 :=
  ⟨rfl, rfl, rfl, rfl⟩

/-- C2 counterexample: in the spec's own worked example (pan limits 0..270,
step 2, current angle 10, absolute target 15) the emitted sequence is
`10, 12, 14` — the clamped target 15 is *not* emitted, contrary to the
claimed sequence `10, 12, 14, 15`. -/
theorem c2_final_angle_counterexample :
    (pan 15 false exampleSys).2.1 = [10, 12, 14] ∧
    (pan 15 false exampleSys).2.1 ≠ [10, 12, 14, 15] := by
  decide

/-- C3 counterexample: with pan limits tightened to 20..30 while the pan
servo sits at angle 10, an absolute move to 30 emits the angle 10, which
is below the configured minimum of 20. -/
theorem c3_emitted_outside_limits_counterexample :
    10 ∈ (pan 30 false tightenedSys).2.1 ∧
    ¬ (tightenedSys.state.position.pan.min ≤ (10 : Int)) := by
  decide

/-- C6 counterexample: deleting `"home"` from the default state succeeds
and removes the `"home"` entry from the location registry. -/
theorem c6_delete_home_counterexample :
    (delete_location "home" init_sys).map (fun s => dictMem s.state.locations "home") =
      some false := by
  decide

/-- C7 counterexample: with the pan servo at angle 60, explicitly setting
the pan max limit to 0 stores 60 (the captured current angle), not the
supplied value 0. -/
theorem c7_zero_value_counterexample :
    (pan_max (some 0) init_sys).state.position.pan.max = 60 ∧
    (pan_max (some 0) init_sys).state.position.pan.max ≠ 0 := by
  decide

/-- C8 counterexample: with pan limits 0..270 but step 4, starting at
angle 10 (inside limits, `a + 2 ≤ max`, `a ≥ 0`), `move_left` followed by
`move_right` returns 8, not the original angle 10. -/
theorem c8_return_value_counterexample :
    (move_right (move_left stepFourSys).2.2).1 = 8 ∧
    (move_right (move_left stepFourSys).2.2).1 ≠ 10 := by
  decide

/-- C2 (amended): for every move on either axis whose stepping loop runs
from a non-negative current angle, when the clamped target is an exact
multiple of `step` away from the current angle the last emitted angle is
exactly the clamped target (in either direction); when it is not, the
target is never emitted at all — the iteration bound `target + direction`
makes the target inclusive only in the aligned case.  In the spec's
worked example (limits 0..270, step 2, sleep 0, current angle 10)
`MoveAxis(pan, 15, relative=false)` emits `10, 12, 14` — not
`10, 12, 14, 15` — and returns 15. -/
theorem c2_last_emitted_is_target_when_aligned (sys : Sys) (i j : Int) (rel : Bool) :
    (0 < sys.state.position.pan.step → 0 ≤ sys.servo_pan.angle →
      ((sys.servo_pan.angle < (pan i rel sys).1 →
        sys.state.position.pan.step ∣ ((pan i rel sys).1 - sys.servo_pan.angle) →
        ((pan i rel sys).2.1).getLast? = some (pan i rel sys).1) ∧
      ((pan i rel sys).1 ≤ sys.servo_pan.angle →
        sys.state.position.pan.step ∣ (sys.servo_pan.angle - (pan i rel sys).1) →
        ((pan i rel sys).2.1).getLast? = some (pan i rel sys).1) ∧
      (¬ sys.state.position.pan.step ∣ ((pan i rel sys).1 - sys.servo_pan.angle) →
        (pan i rel sys).1 ∉ (pan i rel sys).2.1))) ∧
    (0 < sys.state.position.tilt.step → 0 ≤ sys.servo_tilt.angle →
      ((sys.servo_tilt.angle < (tilt j rel sys).1 →
        sys.state.position.tilt.step ∣ ((tilt j rel sys).1 - sys.servo_tilt.angle) →
        ((tilt j rel sys).2.1).getLast? = some (tilt j rel sys).1) ∧
      ((tilt j rel sys).1 ≤ sys.servo_tilt.angle →
        sys.state.position.tilt.step ∣ (sys.servo_tilt.angle - (tilt j rel sys).1) →
        ((tilt j rel sys).2.1).getLast? = some (tilt j rel sys).1) ∧
      (¬ sys.state.position.tilt.step ∣ ((tilt j rel sys).1 - sys.servo_tilt.angle) →
        (tilt j rel sys).1 ∉ (tilt j rel sys).2.1))) ∧
    (pan 15 false exampleSys).1 = 15 ∧
    (pan 15 false exampleSys).2.1 = [10, 12, 14] := by
  refine ⟨?_, ?_, by decide, by decide⟩
  · intro hs hc
    refine ⟨?_, ?_, ?_⟩
    · intro hlt hd
      exact move_servo_getLast_up _ _ _ hs hc hlt hd
    · intro hge hd
      exact move_servo_getLast_down _ _ _ hs hc hge hd
    · intro hd
      exact move_servo_target_not_emitted _ _ _ hc hd
  · intro hs hc
    refine ⟨?_, ?_, ?_⟩
    · intro hlt hd
      exact move_servo_getLast_up _ _ _ hs hc hlt hd
    · intro hge hd
      exact move_servo_getLast_down _ _ _ hs hc hge hd
    · intro hd
      exact move_servo_target_not_emitted _ _ _ hc hd

/-- C2 witness: an aligned upward pan move (target 20 from angle 10,
step 2) ends on its clamped target; an aligned downward tilt move (target
41 from angle 45) ends on its clamped target; and the unaligned pan
target 15 from angle 10 is never emitted. -/
theorem c2_last_emitted_is_target_witness :
    ((pan 20 false exampleSys).2.1).getLast? = some (pan 20 false exampleSys).1 ∧
    ((tilt 41 false exampleSys).2.1).getLast? = some (tilt 41 false exampleSys).1 ∧
    (pan 15 false exampleSys).1 ∉ (pan 15 false exampleSys).2.1 :=
  ⟨((c2_last_emitted_is_target_when_aligned exampleSys 20 41 false).1
      (by decide) (by decide)).1 (by decide) (by decide),
   ((c2_last_emitted_is_target_when_aligned exampleSys 20 41 false).2.1
      (by decide) (by decide)).2.1 (by decide) (by decide),
   ((c2_last_emitted_is_target_when_aligned exampleSys 15 41 false).1
      (by decide) (by decide)).2.2 (by decide)⟩

/-- C3 (amended): provided the axis's step is positive, its limits satisfy
`min ≤ max`, and the stepping loop's starting angle `max(0, current)` lies
within the configured limits, every angle emitted during a move lies
within `[limits.min, limits.max]` — for both axes.  (The unrestricted
claim is false: a starting angle outside the current limits is itself
emitted, see the counterexample.) -/
theorem c3_emitted_within_limits_from_inside (sys : Sys) (i j : Int) (rel : Bool) :
    (0 < sys.state.position.pan.step →
      sys.state.position.pan.min ≤ sys.state.position.pan.max →
      sys.state.position.pan.min ≤ max 0 sys.servo_pan.angle →
      max 0 sys.servo_pan.angle ≤ sys.state.position.pan.max →
      ∀ x, x ∈ (pan i rel sys).2.1 →
        sys.state.position.pan.min ≤ x ∧ x ≤ sys.state.position.pan.max) ∧
    (0 < sys.state.position.tilt.step →
      sys.state.position.tilt.min ≤ sys.state.position.tilt.max →
      sys.state.position.tilt.min ≤ max 0 sys.servo_tilt.angle →
      max 0 sys.servo_tilt.angle ≤ sys.state.position.tilt.max →
      ∀ x, x ∈ (tilt j rel sys).2.1 →
        sys.state.position.tilt.min ≤ x ∧ x ≤ sys.state.position.tilt.max) := by
  constructor
  · intro hs hlm h1 h2 x hx
    have hx2 : x ∈ (move_servo sys.state.position.pan.step
        (clamp (i + (if rel then sys.servo_pan.angle else 0))
          sys.state.position.pan.min sys.state.position.pan.max)
        sys.servo_pan).1 := hx
    have hwb := clamp_bounds (v := i + (if rel then sys.servo_pan.angle else 0)) hlm
    exact move_servo_emitted_within _ _ _ _ _ hs hwb.1 hwb.2 h1 h2 x hx2
  · intro hs hlm h1 h2 x hx
    have hx2 : x ∈ (move_servo sys.state.position.tilt.step
        (clamp (j + (if rel then sys.servo_tilt.angle else 0))
          sys.state.position.tilt.min sys.state.position.tilt.max)
        sys.servo_tilt).1 := hx
    have hwb := clamp_bounds (v := j + (if rel then sys.servo_tilt.angle else 0)) hlm
    exact move_servo_emitted_within _ _ _ _ _ hs hwb.1 hwb.2 h1 h2 x hx2

/-- C3 witness: in the worked example the emitted pan angle 12 and the
emitted tilt angle 45 are within their axes' limits. -/
theorem c3_emitted_within_limits_witness :
    (exampleSys.state.position.pan.min ≤ 12 ∧
      12 ≤ exampleSys.state.position.pan.max) ∧
    (exampleSys.state.position.tilt.min ≤ 45 ∧
      45 ≤ exampleSys.state.position.tilt.max) :=
  ⟨(c3_emitted_within_limits_from_inside exampleSys 15 100 false).1
      (by decide) (by decide) (by decide) (by decide) 12 (by decide),
   (c3_emitted_within_limits_from_inside exampleSys 15 100 false).2
      (by decide) (by decide) (by decide) (by decide) 45 (by decide)⟩

/-- C4: after `save_location name` (which stores the then-current pan and
tilt angles unclamped), a later `move_location name` — run on any machine
`sys2` that still holds the saved registry but whose limits are now
`panL`/`tiltL` and whose servos may have moved — finds the entry, moves
the pan servo and then the tilt servo, and each move targets the saved
angle clamped against the limits in force at move time (`panL`/`tiltL`),
not the limits at save time. -/
theorem c4_location_roundtrip_clamps_at_move_time (sys sys2 : Sys) (name : String)
    (panL tiltL : ServoPosition)
    (hloc : sys2.state.locations = (save_location name sys).state.locations)
    (hlim : sys2.state.position = ⟨panL, tiltL⟩) :
    (move_location name sys2).status = none ∧
    (move_location name sys2).pan_emitted =
      (move_servo panL.step (clamp sys.servo_pan.angle panL.min panL.max)
        sys2.servo_pan).1 ∧
    (move_location name sys2).tilt_emitted =
      (move_servo tiltL.step (clamp sys.servo_tilt.angle tiltL.min tiltL.max)
        sys2.servo_tilt).1 ∧
    (move_location name sys2).sys.servo_pan =
      (move_servo panL.step (clamp sys.servo_pan.angle panL.min panL.max)
        sys2.servo_pan).2 ∧
    (move_location name sys2).sys.servo_tilt =
      (move_servo tiltL.step (clamp sys.servo_tilt.angle tiltL.min tiltL.max)
        sys2.servo_tilt).2 ∧
    (move_location name sys2).sys.state = sys2.state := by
  have hlook : dictLookup sys2.state.locations name =
      some ⟨sys.servo_pan.angle, sys.servo_tilt.angle⟩ := by
    rw [hloc]
    exact dictLookup_dictSet_self _ _ _
  simp [move_location, hlook, hlim]

/-- C4 witness: save at pan 60 / tilt 45 under default limits, tighten the
pan limits to 20..30, move back: the pan move targets
`clamp(60, 20, 30) = 30`, the limits in force at move time. -/
theorem c4_location_roundtrip_witness :
    (move_location "x" roundtripSys).status = none ∧
    (move_location "x" roundtripSys).pan_emitted =
      (move_servo (⟨20, 30, 2, 0⟩ : ServoPosition).step
        (clamp init_sys.servo_pan.angle (⟨20, 30, 2, 0⟩ : ServoPosition).min
          (⟨20, 30, 2, 0⟩ : ServoPosition).max) roundtripSys.servo_pan).1 ∧
    (move_location "x" roundtripSys).tilt_emitted =
      (move_servo (⟨0, 135, 2, 0⟩ : ServoPosition).step
        (clamp init_sys.servo_tilt.angle (⟨0, 135, 2, 0⟩ : ServoPosition).min
          (⟨0, 135, 2, 0⟩ : ServoPosition).max) roundtripSys.servo_tilt).1 ∧
    (move_location "x" roundtripSys).sys.servo_pan =
      (move_servo (⟨20, 30, 2, 0⟩ : ServoPosition).step
        (clamp init_sys.servo_pan.angle (⟨20, 30, 2, 0⟩ : ServoPosition).min
          (⟨20, 30, 2, 0⟩ : ServoPosition).max) roundtripSys.servo_pan).2 ∧
    (move_location "x" roundtripSys).sys.servo_tilt =
      (move_servo (⟨0, 135, 2, 0⟩ : ServoPosition).step
        (clamp init_sys.servo_tilt.angle (⟨0, 135, 2, 0⟩ : ServoPosition).min
          (⟨0, 135, 2, 0⟩ : ServoPosition).max) roundtripSys.servo_tilt).2 ∧
    (move_location "x" roundtripSys).sys.state = roundtripSys.state :=
  c4_location_roundtrip_clamps_at_move_time init_sys roundtripSys "x"
    ⟨20, 30, 2, 0⟩ ⟨0, 135, 2, 0⟩ rfl rfl

/-- C6 (amended): the `"home"` location is present in the initial state
and is preserved by `save_location`, by `delete_location` on any other
name, and by every move and limit-setting operation — but
`delete_location "home"` itself succeeds and removes the `"home"` entry
(the code does not protect the reserved name). -/
theorem c6_home_location_presence :
    dictMem init_sys.state.locations "home" = true ∧
    (∀ sys name, dictMem sys.state.locations "home" = true →
      dictMem (save_location name sys).state.locations "home" = true) ∧
    (∀ sys name sys2, name ≠ "home" → delete_location name sys = some sys2 →
      dictMem sys2.state.locations "home" = dictMem sys.state.locations "home") ∧
    (∀ sys sys2, (sys.state.locations.map Prod.fst).Nodup →
      delete_location "home" sys = some sys2 →
      dictMem sys2.state.locations "home" = false) ∧
    (∀ sys i rel, (pan i rel sys).2.2.state.locations = sys.state.locations) ∧
    (∀ sys i rel, (tilt i rel sys).2.2.state.locations = sys.state.locations) ∧
    (∀ sys name, (move_location name sys).sys.state.locations = sys.state.locations) ∧
    (∀ sys v, (pan_max v sys).state.locations = sys.state.locations) ∧
    (∀ sys v, (pan_min v sys).state.locations = sys.state.locations) ∧
    (∀ sys v, (tilt_max v sys).state.locations = sys.state.locations) ∧
    (∀ sys v, (tilt_min v sys).state.locations = sys.state.locations) := by
  refine ⟨by decide, ?_, ?_, ?_, fun _ _ _ => rfl, fun _ _ _ => rfl, ?_,
    fun _ _ => rfl, fun _ _ => rfl, fun _ _ => rfl, fun _ _ => rfl⟩
  · intro sys name h
    show (dictLookup (dictSet sys.state.locations name
      ⟨get_current_pan_position sys, get_current_tilt_position sys⟩) "home").isSome = true
    by_cases hn : ("home" : String) = name
    · subst hn
      rw [dictLookup_dictSet_self]
      rfl
    · rw [dictLookup_dictSet_ne _ _ _ _ hn]
      exact h
  · intro sys name sys2 hne hdel
    unfold delete_location at hdel
    rcases Option.map_eq_some'.1 hdel with ⟨locs2, hd, hsys⟩
    subst hsys
    show (dictLookup locs2 "home").isSome = (dictLookup sys.state.locations "home").isSome
    rw [dictDel_lookup_ne _ _ _ _ (Ne.symm hne) hd]
  · intro sys sys2 hnd hdel
    unfold delete_location at hdel
    rcases Option.map_eq_some'.1 hdel with ⟨locs2, hd, hsys⟩
    subst hsys
    show (dictLookup locs2 "home").isSome = false
    rw [dictDel_lookup_self _ _ _ hnd hd]
    rfl
  · intro sys name
    rcases hd : dictLookup sys.state.locations name with _ | loc <;>
      simp [move_location, hd]

/-- C6 witness: saving a new location keeps `"home"`, and deleting
`"home"` from the default state leaves a registry without it. -/
theorem c6_home_location_presence_witness :
    dictMem (save_location "x" init_sys).state.locations "home" = true ∧
    dictMem (⟨⟨initial_state.position, []⟩, ⟨60⟩, ⟨45⟩⟩ : Sys).state.locations "home" =
      false :=
  ⟨c6_home_location_presence.2.1 init_sys "x" (by decide),
   c6_home_location_presence.2.2.2.1 init_sys ⟨⟨initial_state.position, []⟩, ⟨60⟩, ⟨45⟩⟩
     (by decide) (by decide)⟩

/-- C7 (amended): a limit-setting handler given an explicit nonzero value
`v` stores exactly `v`; given no value — or the explicit value 0, which
Python truthiness conflates with "no value" — it instead captures the
axis's current angle. -/
theorem c7_set_limit_value_semantics (sys : Sys) (v : Int) (hv : v ≠ 0) :
    (pan_max (some v) sys).state.position.pan.max = v ∧
    (pan_min (some v) sys).state.position.pan.min = v ∧
    (tilt_max (some v) sys).state.position.tilt.max = v ∧
    (tilt_min (some v) sys).state.position.tilt.min = v ∧
    (pan_max none sys).state.position.pan.max = get_current_pan_position sys ∧
    (pan_min none sys).state.position.pan.min = get_current_pan_position sys ∧
    (tilt_max none sys).state.position.tilt.max = get_current_tilt_position sys ∧
    (tilt_min none sys).state.position.tilt.min = get_current_tilt_position sys ∧
    (pan_max (some 0) sys).state.position.pan.max = get_current_pan_position sys ∧
    (pan_min (some 0) sys).state.position.pan.min = get_current_pan_position sys ∧
    (tilt_max (some 0) sys).state.position.tilt.max = get_current_tilt_position sys ∧
    (tilt_min (some 0) sys).state.position.tilt.min = get_current_tilt_position sys := by
  have hb : value_truthy (some v) = true := by
    simp [value_truthy, hv]
  have hz : value_truthy (some 0) = false := by
    simp [value_truthy]
  simp [pan_max, pan_min, tilt_max, tilt_min, value_truthy, hb, hz, hv]

/-- C7 witness: the handlers at `v = 7` and at no value / explicit 0 on
the default machine (pan angle 60, tilt angle 45). -/
theorem c7_set_limit_value_semantics_witness :
    (pan_max (some 7) init_sys).state.position.pan.max = 7 ∧
    (pan_min (some 7) init_sys).state.position.pan.min = 7 ∧
    (tilt_max (some 7) init_sys).state.position.tilt.max = 7 ∧
    (tilt_min (some 7) init_sys).state.position.tilt.min = 7 ∧
    (pan_max none init_sys).state.position.pan.max = get_current_pan_position init_sys ∧
    (pan_min none init_sys).state.position.pan.min = get_current_pan_position init_sys ∧
    (tilt_max none init_sys).state.position.tilt.max = get_current_tilt_position init_sys ∧
    (tilt_min none init_sys).state.position.tilt.min = get_current_tilt_position init_sys ∧
    (pan_max (some 0) init_sys).state.position.pan.max = get_current_pan_position init_sys ∧
    (pan_min (some 0) init_sys).state.position.pan.min = get_current_pan_position init_sys ∧
    (tilt_max (some 0) init_sys).state.position.tilt.max =
      get_current_tilt_position init_sys ∧
    (tilt_min (some 0) init_sys).state.position.tilt.min =
      get_current_tilt_position init_sys :=
  c7_set_limit_value_semantics init_sys 7 (by decide)

/-- C8 (amended): provided the axis's configured step is positive and
divides 2 (as the default step 2 does), from a starting angle `a` with
`min ≤ a`, `a + 2 ≤ max` and `a ≥ 0`, `move_left` followed by
`move_right` returns the pan servo to the original angle and
`move_right` returns that angle; mirrored for `move_down`/`move_up` on
the (sign-inverted) tilt axis.  (Without the step-divides-2 condition the
claim fails: see the counterexample with step 4.) -/
theorem c8_nudge_roundtrip (sys : Sys)
    (hp1 : 0 < sys.state.position.pan.step) (hp2 : sys.state.position.pan.step ∣ 2)
    (hp3 : sys.state.position.pan.min ≤ sys.servo_pan.angle)
    (hp4 : sys.servo_pan.angle + 2 ≤ sys.state.position.pan.max)
    (hp5 : 0 ≤ sys.servo_pan.angle)
    (ht1 : 0 < sys.state.position.tilt.step) (ht2 : sys.state.position.tilt.step ∣ 2)
    (ht3 : sys.state.position.tilt.min ≤ sys.servo_tilt.angle)
    (ht4 : sys.servo_tilt.angle + 2 ≤ sys.state.position.tilt.max)
    (ht5 : 0 ≤ sys.servo_tilt.angle) :
    (move_right (move_left sys).2.2).1 = sys.servo_pan.angle ∧
    (move_right (move_left sys).2.2).2.2.servo_pan.angle = sys.servo_pan.angle ∧
    (move_up (move_down sys).2.2).1 = sys.servo_tilt.angle ∧
    (move_up (move_down sys).2.2).2.2.servo_tilt.angle = sys.servo_tilt.angle := by
  have hdp : sys.state.position.pan.step ∣
      (sys.servo_pan.angle + 2 - sys.servo_pan.angle) := by
    have h : sys.servo_pan.angle + 2 - sys.servo_pan.angle = 2 := by ring
    rw [h]
    exact hp2
  have hwl : clamp (2 + sys.servo_pan.angle)
      sys.state.position.pan.min sys.state.position.pan.max =
      sys.servo_pan.angle + 2 := by
    unfold clamp
    omega
  have hend1 : (move_servo sys.state.position.pan.step
      (clamp (2 + sys.servo_pan.angle)
        sys.state.position.pan.min sys.state.position.pan.max)
      sys.servo_pan).2 = ⟨sys.servo_pan.angle + 2⟩ := by
    rw [hwl]
    exact move_servo_end_up _ _ _ hp1 hp5 (by omega) hdp
  have hstep1 : (move_left sys).2.2 =
      { sys with servo_pan := ⟨sys.servo_pan.angle + 2⟩ } := by
    show { sys with servo_pan := (move_servo sys.state.position.pan.step
      (clamp (2 + sys.servo_pan.angle)
        sys.state.position.pan.min sys.state.position.pan.max)
      sys.servo_pan).2 } = _
    rw [hend1]
  have hwr : clamp (-2 + (sys.servo_pan.angle + 2))
      sys.state.position.pan.min sys.state.position.pan.max =
      sys.servo_pan.angle := by
    unfold clamp
    omega
  have hend2 : (move_servo sys.state.position.pan.step
      (clamp (-2 + (sys.servo_pan.angle + 2))
        sys.state.position.pan.min sys.state.position.pan.max)
      (⟨sys.servo_pan.angle + 2⟩ : Servo)).2 = ⟨sys.servo_pan.angle⟩ := by
    rw [hwr]
    exact move_servo_end_down _ _ _ hp1
      (by show (0 : Int) ≤ sys.servo_pan.angle + 2; omega)
      (by show sys.servo_pan.angle ≤ sys.servo_pan.angle + 2; omega)
      (by show sys.state.position.pan.step ∣
        (sys.servo_pan.angle + 2 - sys.servo_pan.angle); exact hdp)
  have hdt : sys.state.position.tilt.step ∣
      (sys.servo_tilt.angle + 2 - sys.servo_tilt.angle) := by
    have h : sys.servo_tilt.angle + 2 - sys.servo_tilt.angle = 2 := by ring
    rw [h]
    exact ht2
  have hwd : clamp (2 + sys.servo_tilt.angle)
      sys.state.position.tilt.min sys.state.position.tilt.max =
      sys.servo_tilt.angle + 2 := by
    unfold clamp
    omega
  have hend3 : (move_servo sys.state.position.tilt.step
      (clamp (2 + sys.servo_tilt.angle)
        sys.state.position.tilt.min sys.state.position.tilt.max)
      sys.servo_tilt).2 = ⟨sys.servo_tilt.angle + 2⟩ := by
    rw [hwd]
    exact move_servo_end_up _ _ _ ht1 ht5 (by omega) hdt
  have hstep3 : (move_down sys).2.2 =
      { sys with servo_tilt := ⟨sys.servo_tilt.angle + 2⟩ } := by
    show { sys with servo_tilt := (move_servo sys.state.position.tilt.step
      (clamp (2 + sys.servo_tilt.angle)
        sys.state.position.tilt.min sys.state.position.tilt.max)
      sys.servo_tilt).2 } = _
    rw [hend3]
  have hwu : clamp (-2 + (sys.servo_tilt.angle + 2))
      sys.state.position.tilt.min sys.state.position.tilt.max =
      sys.servo_tilt.angle := by
    unfold clamp
    omega
  have hend4 : (move_servo sys.state.position.tilt.step
      (clamp (-2 + (sys.servo_tilt.angle + 2))
        sys.state.position.tilt.min sys.state.position.tilt.max)
      (⟨sys.servo_tilt.angle + 2⟩ : Servo)).2 = ⟨sys.servo_tilt.angle⟩ := by
    rw [hwu]
    exact move_servo_end_down _ _ _ ht1
      (by show (0 : Int) ≤ sys.servo_tilt.angle + 2; omega)
      (by show sys.servo_tilt.angle ≤ sys.servo_tilt.angle + 2; omega)
      (by show sys.state.position.tilt.step ∣
        (sys.servo_tilt.angle + 2 - sys.servo_tilt.angle); exact hdt)
  refine ⟨?_, ?_, ?_, ?_⟩
  · rw [hstep1]
    exact hwr
  · rw [hstep1]
    show (move_servo sys.state.position.pan.step
      (clamp (-2 + (sys.servo_pan.angle + 2))
        sys.state.position.pan.min sys.state.position.pan.max)
      (⟨sys.servo_pan.angle + 2⟩ : Servo)).2.angle = sys.servo_pan.angle
    rw [hend2]
  · rw [hstep3]
    exact hwu
  · rw [hstep3]
    show (move_servo sys.state.position.tilt.step
      (clamp (-2 + (sys.servo_tilt.angle + 2))
        sys.state.position.tilt.min sys.state.position.tilt.max)
      (⟨sys.servo_tilt.angle + 2⟩ : Servo)).2.angle = sys.servo_tilt.angle
    rw [hend4]

/-- C8 witness: on the default machine (pan 60, tilt 45, step 2, limits
0..270 and 0..135) the left/right and down/up nudge pairs return to the
original angles. -/
theorem c8_nudge_roundtrip_witness :
    (move_right (move_left init_sys).2.2).1 = init_sys.servo_pan.angle ∧
    (move_right (move_left init_sys).2.2).2.2.servo_pan.angle =
      init_sys.servo_pan.angle ∧
    (move_up (move_down init_sys).2.2).1 = init_sys.servo_tilt.angle ∧
    (move_up (move_down init_sys).2.2).2.2.servo_tilt.angle =
      init_sys.servo_tilt.angle :=
  c8_nudge_roundtrip init_sys (by decide) (dvd_refl 2) (by decide) (by decide)
    (by decide) (by decide) (dvd_refl 2) (by decide) (by decide) (by decide)

end Pitilt
